import Mathlib

/-!
# Land-deed ledger and verification subsystem: a shallow embedding

This file embeds, in Lean 4, the parts of the
Blockchain-Based-Land-Deed-Verification-System repository that carry the
invariants under study, and proves (or refutes) the frozen specification
claims against that embedding.

Embedded components:

* `Ledger` — the Go chaincode `fabric-network/chaincode/land-registry/
  land_registry.go` (the `LandRegistry` smart contract).  Fabric's world
  state is modelled as an association list from keys to decoded stored
  values; Fabric keeps composite keys (`CreateCompositeKey`) in a key
  namespace disjoint from ordinary state keys, which the model reflects
  with a dedicated key sum type.  `time.Now()` is threaded as an explicit
  `now : Nat` parameter.
* `Deeds` — the Express route module `backend/src/routes/deeds.js`
  (deed creation and deed verification handlers) over the relational
  `deeds`/`verification_logs` tables of `001_initial_schema.sql`, together
  with the mock branches of `backend/src/services/BlockchainService.js`
  and `backend/src/services/IPFSService.js`.
* `Verif` — the verification-request route module (create request /
  process request handlers) over the `land_deeds` /
  `verification_requests` tables it queries.

Route handlers are modelled from the point where the HTTP middleware
chain has succeeded (authentication middleware is outside this
subsystem); the in-handler validation and permission checks are embedded
faithfully.  External effects with several possible outcomes (an IPFS
upload, a Fabric gateway submission) are threaded as explicit outcome
parameters, and the SHA-256 primitive of node's `crypto` is threaded as
a function parameter.
-/

namespace LandLedger

/-- A Fabric world-state key: either an ordinary state key (a plain
string, as used for deed IDs and transfer IDs) or a composite key built
by `CreateCompositeKey` from an object type and attribute list.  Fabric
stores composite keys in a reserved (U+0000-prefixed) namespace disjoint
from ordinary keys, which this sum type reflects. -/
inductive LKey where
  | simple (k : String)
  | composite (objType : String) (attrs : List String)
  deriving Repr, DecidableEq

/-- The `Deed` struct of the chaincode.  `time.Time` values are modelled
as `Nat` instants and `float64 LandArea` as a rational (the contract only
carries it; no arithmetic is performed on it). -/
structure Deed where
  id : String
  deedNumber : String
  ownerID : String
  propertyAddress : String
  propertyType : String
  landArea : Rat
  landAreaUnit : String
  ipfsHash : String
  status : String
  verificationStatus : String
  createdAt : Nat
  updatedAt : Nat
  verifiedAt : Option Nat
  verifiedBy : String
  deriving Repr, DecidableEq

/-- The `Transfer` struct of the chaincode. -/
structure Transfer where
  id : String
  deedID : String
  fromOwnerID : String
  toOwnerID : String
  transferReason : String
  transferDate : Nat
  createdAt : Nat
  deriving Repr, DecidableEq

/-- A decoded value stored in the world state: deed JSON, a raw deed-ID
byte string (the composite-index entries), or transfer JSON. -/
inductive StoredVal where
  | deed (d : Deed)
  | deedID (id : String)
  | transfer (t : Transfer)
  deriving Repr, DecidableEq

/-- The Fabric world state, as a key-unique association list. -/
abbrev WorldState := List (LKey × StoredVal)

/-- `stub.GetState`. -/
def getState (st : WorldState) (k : LKey) : Option StoredVal :=
  match st.find? (fun p => p.1 == k) with
  | some p => some p.2
  | none => none

/-- `stub.PutState`: overwrites any previous value under the key. -/
def putState (st : WorldState) (k : LKey) (v : StoredVal) : WorldState :=
  (k, v) :: st.filter (fun p => p.1 != k)

/-- `stub.CreateCompositeKey("deedNumber", [number])`. -/
def deedNumberKey (number : String) : LKey :=
  .composite "deedNumber" [number]

/-- `json.Unmarshal` of a stored value into the `Deed` struct.  Deed
JSON decodes to itself; the raw composite-index bytes are not valid JSON
and fail; transfer JSON decodes field-by-field, leaving every `Deed`
field with no matching JSON key at its Go zero value (`id` and
`createdAt` are the only keys the two structs share). -/
def decodeDeed : StoredVal → Except String Deed
  | .deed d => .ok d
  | .deedID _ => .error "failed to unmarshal deed JSON"
  | .transfer t =>
      .ok { id := t.id, deedNumber := "", ownerID := "",
            propertyAddress := "", propertyType := "", landArea := 0,
            landAreaUnit := "", ipfsHash := "", status := "",
            verificationStatus := "", createdAt := t.createdAt,
            updatedAt := 0, verifiedAt := none, verifiedBy := "" }

/-- `DeedExists`: a state read under the plain deed-ID key. -/
def deedExists (st : WorldState) (deedID : String) : Bool :=
  (getState st (.simple deedID)).isSome

/-- `GetDeed`: reads the deed-ID key and unmarshals, or fails when the
key is absent. -/
def GetDeed (st : WorldState) (deedID : String) : Except String Deed :=
  match getState st (.simple deedID) with
  | none => .error ("deed " ++ deedID ++ " does not exist")
  | some v => decodeDeed v

/-- `GetDeedByNumber`: resolves the composite deed-number index, then
reads the referenced deed. -/
def GetDeedByNumber (st : WorldState) (number : String) : Except String Deed :=
  match getState st (deedNumberKey number) with
  | none => .error ("deed with number " ++ number ++ " does not exist")
  | some (.deedID idBytes) => GetDeed st idBytes
  | some (.deed d) => GetDeed st d.id
  | some (.transfer t) => GetDeed st t.id

/-- `CreateDeed`: rejects when the deed ID is already present, otherwise
stamps creation/update time, forces both statuses to `pending`, stores
the deed under its ID and the deed-number index entry under the
composite key. -/
def CreateDeed (st : WorldState) (now : Nat) (deed : Deed) :
    Except String WorldState :=
  if deedExists st deed.id then
    .error ("deed with ID " ++ deed.id ++ " already exists")
  else
    let deed' := { deed with createdAt := now, updatedAt := now,
                             status := "pending",
                             verificationStatus := "pending" }
    let st1 := putState st (.simple deed.id) (.deed deed')
    .ok (putState st1 (deedNumberKey deed.deedNumber) (.deedID deed.id))

/-- The partial update accepted by `UpdateDeed`: the handler looks only
at the `status`, `verificationStatus` and `verifiedBy` JSON keys. -/
structure DeedUpdate where
  status : Option String
  verificationStatus : Option String
  verifiedBy : Option String
  deriving Repr, DecidableEq

/-- `UpdateDeed`: loads the deed, applies the fields present in the
update, stamps the update time (and the verification time when a
verifier is supplied), and stores the result back. -/
def UpdateDeed (st : WorldState) (now : Nat) (deedID : String)
    (u : DeedUpdate) : Except String WorldState :=
  match GetDeed st deedID with
  | .error e => .error e
  | .ok deed =>
      let d1 := match u.status with
        | some s => { deed with status := s }
        | none => deed
      let d2 := match u.verificationStatus with
        | some s => { d1 with verificationStatus := s }
        | none => d1
      let d3 := match u.verifiedBy with
        | some s => { d2 with verifiedBy := s, verifiedAt := some now }
        | none => d2
      .ok (putState st (.simple deedID) (.deed { d3 with updatedAt := now }))

/-- The key under which `TransferDeed` stores the transfer record:
`transfer_<deedID>_<unix time>`. -/
def transferRecordId (deedID : String) (now : Nat) : String :=
  "transfer_" ++ deedID ++ "_" ++ toString now

/-- `TransferDeed`: loads the referenced deed, rejects when the deed's
current owner differs from the transfer's from-owner (before any state
write), otherwise rewrites the deed with the new owner, status
`transferred` and a fresh update time, then stores the stamped transfer
record under a generated ID. -/
def TransferDeed (st : WorldState) (now : Nat) (transfer : Transfer) :
    Except String WorldState :=
  match GetDeed st transfer.deedID with
  | .error e => .error e
  | .ok deed =>
      if deed.ownerID ≠ transfer.fromOwnerID then
        .error "current owner does not match transfer from owner"
      else
        let deed' := { deed with ownerID := transfer.toOwnerID,
                                 status := "transferred", updatedAt := now }
        let st1 := putState st (.simple transfer.deedID) (.deed deed')
        let tid := transferRecordId transfer.deedID now
        let transfer' := { transfer with id := tid, createdAt := now }
        .ok (putState st1 (.simple tid) (.transfer transfer'))

/-- A chaincode invocation as Fabric commits it: the write set of a
successful invocation replaces the world state; an invocation that
returns an error commits nothing. -/
def commit (st : WorldState) (r : Except String WorldState) :
    WorldState × Option String :=
  match r with
  | .ok st' => (st', none)
  | .error e => (st, some e)

theorem find?_filter_of_imp {α : Type} (l : List α) (q f : α → Bool)
    (h : ∀ x, q x = true → f x = true) :
    (l.filter f).find? q = l.find? q := by
  induction l with
  | nil => rfl
  | cons a tl ih =>
      by_cases hq : q a = true
      · rw [List.filter_cons_of_pos (h a hq), List.find?_cons_of_pos _ hq,
          List.find?_cons_of_pos _ hq]
      · by_cases hf : f a = true
        · rw [List.filter_cons_of_pos hf, List.find?_cons_of_neg _ (by simpa using hq),
            List.find?_cons_of_neg _ (by simpa using hq), ih]
        · rw [List.filter_cons_of_neg (by simpa using hf),
            List.find?_cons_of_neg _ (by simpa using hq), ih]

theorem getState_putState_self (st : WorldState) (k : LKey) (v : StoredVal) :
    getState (putState st k v) k = some v := by
  simp [getState, putState]

theorem getState_putState_ne (st : WorldState) (k k' : LKey) (v : StoredVal)
    (h : k ≠ k') : getState (putState st k v) k' = getState st k' := by
  simp only [getState, putState]
  rw [List.find?_cons_of_neg _ (by simp [h]),
    find?_filter_of_imp st _ _ (fun x hx => by
      have hx' : x.1 = k' := by simpa using hx
      simp [hx', Ne.symm h])]

theorem transferRecordId_ne (dId : String) (now : Nat) :
    transferRecordId dId now ≠ dId := by
  intro h
  have hlen := congrArg String.length h
  have h9 : ("transfer_" : String).length = 9 := rfl
  have h1 : ("_" : String).length = 1 := rfl
  simp [transferRecordId, String.length_append, h9, h1] at hlen
  omega

/-- **C1.** In `TransferDeed`, for every deed present in the ledger: a
transfer whose from-owner differs from the deed's current owner fails
with the ownership-mismatch error and commits nothing, leaving the world
state entirely unchanged (all deed fields keep their prior values and no
transfer record is written); a transfer whose from-owner matches rewrites
the deed with the to-owner, status `transferred` and a fresh update
time, and persists the stamped transfer record under its generated
key. -/
theorem transferDeed_ownership_guard (st : WorldState) (now : Nat)
    (t : Transfer) (d : Deed)
    (hd : getState st (.simple t.deedID) = some (.deed d)) :
    (d.ownerID ≠ t.fromOwnerID →
      commit st (TransferDeed st now t)
        = (st, some "current owner does not match transfer from owner"))
    ∧ (d.ownerID = t.fromOwnerID →
      ∃ st', TransferDeed st now t = .ok st'
        ∧ getState st' (.simple t.deedID)
            = some (.deed { d with ownerID := t.toOwnerID,
                                   status := "transferred",
                                   updatedAt := now })
        ∧ getState st' (.simple (transferRecordId t.deedID now))
            = some (.transfer { t with id := transferRecordId t.deedID now,
                                       createdAt := now })) := by
  have hget : GetDeed st t.deedID = .ok d := by
    simp [GetDeed, hd, decodeDeed]
  constructor
  · intro hne
    simp [commit, TransferDeed, hget, hne]
  · intro heq
    have hrun : TransferDeed st now t
        = .ok (putState
            (putState st (.simple t.deedID)
              (.deed { d with ownerID := t.toOwnerID,
                              status := "transferred", updatedAt := now }))
            (.simple (transferRecordId t.deedID now))
            (.transfer { t with id := transferRecordId t.deedID now,
                                createdAt := now })) := by
      simp [TransferDeed, hget, heq]
    refine ⟨_, hrun, ?_, getState_putState_self _ _ _⟩
    rw [getState_putState_ne _ _ _ _ (fun hk => by
        exact transferRecordId_ne t.deedID now (by injection hk)),
      getState_putState_self]

/-- A concrete sample deed used in witnesses. -/
def sampleDeed : Deed where
  id := "d1"
  deedNumber := "LD-1"
  ownerID := "alice"
  propertyAddress := "1 Main St"
  propertyType := "residential"
  landArea := 2
  landAreaUnit := "acres"
  ipfsHash := ""
  status := "pending"
  verificationStatus := "pending"
  createdAt := 1
  updatedAt := 1
  verifiedAt := none
  verifiedBy := ""

/-- A concrete sample world state holding only `sampleDeed`. -/
def sampleLedger : WorldState := [(LKey.simple "d1", .deed sampleDeed)]

/-- A transfer of `d1` whose from-owner (`mallory`) is not the deed's
owner (`alice`). -/
def mismatchTransfer : Transfer where
  id := ""
  deedID := "d1"
  fromOwnerID := "mallory"
  toOwnerID := "bob"
  transferReason := "sale"
  transferDate := 7
  createdAt := 0

/-- Witness for C1 at a concrete ledger: the mismatching transfer on
deed `d1` is rejected and commits nothing. -/
theorem transferDeed_ownership_guard_witness :
    commit sampleLedger (TransferDeed sampleLedger 7 mismatchTransfer)
      = (sampleLedger,
         some "current owner does not match transfer from owner") :=
  (transferDeed_ownership_guard sampleLedger 7 mismatchTransfer sampleDeed
    rfl).1 (by decide)

end LandLedger

namespace Hex

/-- One lowercase hexadecimal digit, as produced by node's
`digest('hex')` / `Buffer.toString('hex')`. -/
def hexChar (n : Nat) : Char :=
  if n < 10 then Char.ofNat (48 + n) else Char.ofNat (87 + n)

/-- The two lowercase hex digits of one byte. -/
def byteHex (b : Nat) : List Char :=
  [hexChar (b / 16 % 16), hexChar (b % 16)]

/-- Lowercase hex encoding of a byte sequence. -/
def hexEncode (bytes : List Nat) : String :=
  ⟨(bytes.map byteHex).flatten⟩

/-- The lowercase hex alphabet. -/
def isLowerHexChar (c : Char) : Bool :=
  c ∈ "0123456789abcdef".toList

theorem hexChar_lower : ∀ n < 16, isLowerHexChar (hexChar n) = true := by
  decide

theorem byteHex_lower (b : Nat) : ∀ c ∈ byteHex b, isLowerHexChar c = true := by
  intro c hc
  simp only [byteHex, List.mem_cons, List.not_mem_nil, or_false] at hc
  rcases hc with rfl | rfl <;>
    exact hexChar_lower _ (Nat.mod_lt _ (by omega))

/-- Every character of a hex encoding is a lowercase hex digit. -/
theorem hexEncode_lower (bytes : List Nat) :
    (hexEncode bytes).toList.all isLowerHexChar = true := by
  simp only [hexEncode, String.toList, List.all_eq_true]
  intro c hc
  rw [List.mem_flatten] at hc
  obtain ⟨l, hl, hcl⟩ := hc
  rw [List.mem_map] at hl
  obtain ⟨b, _, rfl⟩ := hl
  exact byteHex_lower b c hcl

/-- A hex encoding has two characters per byte. -/
theorem hexEncode_length (bytes : List Nat) :
    (hexEncode bytes).length = 2 * bytes.length := by
  induction bytes with
  | nil => rfl
  | cons b tl ih =>
      simp only [hexEncode, String.length, String.toList] at ih ⊢
      simp [byteHex] at ih ⊢
      omega

end Hex

/-! ## Document Store: `IPFSService.js`, mock branches

When the IPFS client cannot be reached at initialization the service
stays uninitialized and every call takes its mock branch.  The mock
upload fabricates a content address from 32 random bytes and stores
nothing; the mock retrieval throws unconditionally.  The random bytes of
`crypto.randomBytes(32)` are threaded as an explicit parameter. -/

namespace IPFSvc

/-- The object returned by `uploadBuffer`. -/
structure UploadResult where
  hash : String
  size : Nat
  path : String
  mock : Bool
  deriving Repr, DecidableEq

/-- `uploadBuffer`, mock branch: the returned address is `Qm` followed
by the hex of 32 random bytes; the buffer itself is not stored
anywhere. -/
def mockUploadBuffer (buffer : List Nat) (randBytes : List Nat) : UploadResult :=
  let mockHash := "Qm" ++ Hex.hexEncode randBytes
  { hash := mockHash, size := buffer.length,
    path := "/ipfs/" ++ mockHash, mock := true }

/-- `getFileBuffer`, mock branch: throws unconditionally. -/
def mockGetFileBuffer (_ipfsHash : String) : Except String (List Nat) :=
  .error "IPFS not initialized - cannot retrieve file"

/-- **C8, counterexample.**  The claim asserts that a `Get` on the mock
backend succeeds for an address the mock's own `Put` produced and
returns the stored bytes.  At the concrete payload `[1, 2, 3]`: the mock
`Put` does return a valid-looking address, but the subsequent mock `Get`
on that very address throws the not-initialized error instead of
returning the bytes. -/
theorem mock_put_get_roundtrip_counterexample :
    (mockUploadBuffer [1, 2, 3] (List.replicate 32 0)).size = 3
    ∧ mockGetFileBuffer (mockUploadBuffer [1, 2, 3] (List.replicate 32 0)).hash
        = .error "IPFS not initialized - cannot retrieve file"
    ∧ mockGetFileBuffer (mockUploadBuffer [1, 2, 3] (List.replicate 32 0)).hash
        ≠ .ok [1, 2, 3] := by
  refine ⟨rfl, rfl, ?_⟩
  simp [mockUploadBuffer, mockGetFileBuffer]

/-- **C8, amended.**  The mock `Put` returns a valid-looking content
address — the string `Qm` followed by 64 lowercase hex characters — plus
the payload's size and a mock marker, but stores nothing; every `Get`
against the mock backend fails with the not-initialized error, so the
Put-then-Get round trip never holds on the mock backend. -/
theorem mock_documentstore_behavior (buffer randBytes : List Nat)
    (hlen : randBytes.length = 32) :
    (∃ hex, (mockUploadBuffer buffer randBytes).hash = "Qm" ++ hex
      ∧ hex.length = 64
      ∧ hex.toList.all Hex.isLowerHexChar = true)
    ∧ (mockUploadBuffer buffer randBytes).size = buffer.length
    ∧ (mockUploadBuffer buffer randBytes).mock = true
    ∧ ∀ addr, mockGetFileBuffer addr
        = .error "IPFS not initialized - cannot retrieve file" := by
  refine ⟨⟨Hex.hexEncode randBytes, rfl, ?_, Hex.hexEncode_lower randBytes⟩,
    rfl, rfl, fun _ => rfl⟩
  rw [Hex.hexEncode_length, hlen]

/-- Witness for C8 (amended) at 32 zero random bytes and payload
`[1, 2, 3]`. -/
theorem mock_documentstore_behavior_witness :
    (∃ hex, (mockUploadBuffer [1, 2, 3] (List.replicate 32 0)).hash = "Qm" ++ hex
      ∧ hex.length = 64
      ∧ hex.toList.all Hex.isLowerHexChar = true)
    ∧ (mockUploadBuffer [1, 2, 3] (List.replicate 32 0)).size = 3
    ∧ (mockUploadBuffer [1, 2, 3] (List.replicate 32 0)).mock = true
    ∧ ∀ addr, mockGetFileBuffer addr
        = .error "IPFS not initialized - cannot retrieve file" :=
  mock_documentstore_behavior [1, 2, 3] (List.replicate 32 0) (by decide)

end IPFSvc

/-! ## Ledger Gateway: `BlockchainService.js`, mock branches

When no connection profile exists (or connecting fails) the service sets
`mockMode` and every operation takes its mock branch, which contacts no
backend.  `Date.now()` (a millisecond clock) and
`Math.floor(Math.random() * 1000)` are threaded as explicit parameters;
`new Date().toISOString()` is threaded as an opaque string.  The
returned objects are modelled as ordered key/value lists so that the
exact field set of each envelope is part of the model. -/

namespace BlockchainSvc

/-- A primitive JSON field value. -/
inductive JPrim where
  | s (v : String)
  | n (v : Nat)
  | b (v : Bool)
  deriving Repr, DecidableEq

/-- A returned JSON object, with its exact field list. -/
abbrev Envelope := List (String × JPrim)

/-- The synthetic identifier of a mock `createDeed` write:
`'mock_tx_' + Date.now()`. -/
def mockCreateTxId (nowMs : Nat) : String :=
  "mock_tx_" ++ toString nowMs

/-- The synthetic identifier of a mock `verifyDeed` write:
`'mock_verification_' + Date.now()`. -/
def mockVerifyTxId (nowMs : Nat) : String :=
  "mock_verification_" ++ toString nowMs

/-- `createDeed`, mock branch. -/
def mockCreateDeedEnvelope (nowMs : Nat) (blockRand : Nat) : Envelope :=
  [("transactionId", .s (mockCreateTxId nowMs)),
   ("blockNumber", .n blockRand),
   ("success", .b true)]

/-- `verifyDeed`, mock branch. -/
def mockVerifyDeedEnvelope (nowMs : Nat) (nowIso : String) : Envelope :=
  [("transactionId", .s (mockVerifyTxId nowMs)),
   ("verified", .b true),
   ("timestamp", .s nowIso)]

/-- `getDeed`, mock branch: synthesized unconditionally from the queried
deed number alone; the function is total, so no deed number ever
produces a not-found failure. -/
def mockGetDeedEnvelope (deedNumber : String) (nowIso : String) : Envelope :=
  [("deedNumber", .s deedNumber),
   ("owner", .s "Mock Owner"),
   ("status", .s "verified"),
   ("timestamp", .s nowIso)]

/-- **C9, counterexample.**  Two distinct mock `createDeed` writes
issued in the same millisecond (they are different envelopes — the
random block numbers differ) receive the same synthetic identifier, and
the returned envelope's field set is exactly `transactionId`,
`blockNumber`, `success`: it carries no degraded flag. -/
theorem mock_write_identifier_counterexample :
    (mockCreateDeedEnvelope 1000 5).lookup "transactionId"
        = (mockCreateDeedEnvelope 1000 7).lookup "transactionId"
    ∧ mockCreateDeedEnvelope 1000 5 ≠ mockCreateDeedEnvelope 1000 7
    ∧ (mockCreateDeedEnvelope 1000 5).lookup "degraded" = none
    ∧ (mockCreateDeedEnvelope 1000 5).map Prod.fst
        = ["transactionId", "blockNumber", "success"] := by
  refine ⟨rfl, ?_, rfl, rfl⟩
  decide

/-- **C9, amended.**  Mock write envelopes carry no degraded flag: a
mock `createDeed` returns exactly the fields `transactionId`,
`blockNumber`, `success` and a mock `verifyDeed` exactly
`transactionId`, `verified`, `timestamp`.  The synthetic identifiers are
derived from the millisecond clock alone (`mock_tx_<ms>` /
`mock_verification_<ms>`), so any two mock writes issued in the same
millisecond receive identical identifiers; the `mock_` prefix is the
only mark distinguishing a mock write from a live one. -/
theorem mock_write_envelope_shape (nowMs r1 r2 : Nat) (nowIso : String) :
    (mockCreateDeedEnvelope nowMs r1).lookup "transactionId"
        = (mockCreateDeedEnvelope nowMs r2).lookup "transactionId"
    ∧ (mockCreateDeedEnvelope nowMs r1).map Prod.fst
        = ["transactionId", "blockNumber", "success"]
    ∧ (mockCreateDeedEnvelope nowMs r1).lookup "transactionId"
        = some (.s ("mock_tx_" ++ toString nowMs))
    ∧ (mockVerifyDeedEnvelope nowMs nowIso).map Prod.fst
        = ["transactionId", "verified", "timestamp"]
    ∧ (mockVerifyDeedEnvelope nowMs nowIso).lookup "transactionId"
        = some (.s ("mock_verification_" ++ toString nowMs)) :=
  ⟨rfl, rfl, rfl, rfl, rfl⟩

/-- **C10.**  In mock (degraded) mode, `getDeed` succeeds for every
queried deed number — the mock branch synthesizes its result from the
queried number alone, with no lookup anywhere, so numbers for which no
deed was ever created are served alike — and the synthesized record
always reports status `verified`. -/
theorem mock_getDeed_always_verified (deedNumber nowIso : String) :
    (mockGetDeedEnvelope deedNumber nowIso).lookup "status"
        = some (.s "verified")
    ∧ (mockGetDeedEnvelope deedNumber nowIso).lookup "deedNumber"
        = some (.s deedNumber)
    ∧ (mockGetDeedEnvelope deedNumber nowIso).lookup "owner"
        = some (.s "Mock Owner") := by
  refine ⟨?_, rfl, ?_⟩ <;>
    simp [mockGetDeedEnvelope, List.lookup]

end BlockchainSvc

/-! ## Deed routes: `backend/src/routes/deeds.js`

The deed-creation and deed-verification handlers over the relational
`deeds` and `verification_logs` tables of `001_initial_schema.sql`,
wired to `BlockchainService` and `IPFSService`.  Serial primary keys are
modelled with explicit next-id counters; `CURRENT_TIMESTAMP` /
`Date.now()` as a `now : Nat` parameter. -/

namespace Registry

/-- A row of the `deeds` table. -/
structure DeedRow where
  id : Nat
  deed_number : String
  title : String
  description : Option String
  owner_id : Int
  property_address : String
  survey_plan_number : Option String
  extent : String
  boundaries : Option String
  document_hash : Option String
  ipfs_hash : Option String
  blockchain_transaction_id : Option String
  verification_status : String
  created_by : Int
  verified_by : Option Int
  created_at : Nat
  updated_at : Nat
  deriving Repr, DecidableEq

/-- A row of the `verification_logs` table (the constant-null `metadata`
column is omitted). -/
structure LogRow where
  id : Nat
  deed_id : Nat
  verified_by : Int
  verification_type : String
  verification_result : String
  notes : Option String
  created_at : Nat
  deriving Repr, DecidableEq

/-- The state this route module reads and writes: the two relational
tables (with their serial counters) and the Fabric world state behind
the gateway. -/
structure RegState where
  deeds : List DeedRow
  logs : List LogRow
  nextDeedId : Nat
  nextLogId : Nat
  ledger : LandLedger.WorldState
  deriving Repr, DecidableEq

/-- The initial state: empty tables, serials at 1, empty world state. -/
def initState : RegState :=
  { deeds := [], logs := [], nextDeedId := 1, nextLogId := 1, ledger := [] }

/-- A value of a field in a JSON response body. -/
inductive FieldVal where
  | s (v : String)
  | i (v : Int)
  | b (v : Bool)
  | null
  | deed (r : DeedRow)
  deriving Repr, DecidableEq

/-- An HTTP response: status code and the exact field list of the JSON
body. -/
structure Response where
  status : Nat
  body : List (String × FieldVal)
  deriving Repr, DecidableEq

/-- The request body of `POST /create` after body parsing.
`owner_id` is `none` when the field is absent or fails `isInt`. -/
structure CreateReq where
  deed_number : String
  title : String
  description : Option String
  owner_id : Option Int
  property_address : String
  survey_plan_number : Option String
  extent : String
  boundaries : Option String
  deriving Repr, DecidableEq

/-- The outcome of the `IPFSService.uploadFile` call: either a value is
returned and assigned to `ipfs_hash` (live CID or mock result — the
route stores the string coercion of whatever came back), or the call
threw and the flow continues without a stored attachment. -/
inductive IpfsOutcome where
  | ok (stored : String)
  | failed
  deriving Repr, DecidableEq

/-- The outcome of the `BlockchainService.createDeed` call:
`failed` — the call threw (gateway transport or chaincode error),
caught and logged by the route;
`mock` — mock mode: a synthetic success envelope, no backend contact;
`live` — a live submission that reaches the chaincode `CreateDeed`. -/
inductive ChainLeg where
  | failed
  | mock (blockRand : Nat)
  | live
  deriving Repr, DecidableEq

/-- The chaincode's view of the `deedData` JSON the route builds for the
live submission: `deedNumber`, `ownerId`, `propertyAddress` are set from
the request, every `Deed` field with no matching JSON key stays at its
Go zero value (in particular `id` is the empty string — the route never
sets an `id`). -/
def livePayload (req : CreateReq) (ownerId : Int) : LandLedger.Deed :=
  { id := "", deedNumber := req.deed_number, ownerID := toString ownerId,
    propertyAddress := req.property_address, propertyType := "",
    landArea := 0, landAreaUnit := "", ipfsHash := "", status := "",
    verificationStatus := "", createdAt := 0, updatedAt := 0,
    verifiedAt := none, verifiedBy := "" }

/-- `UPDATE deeds SET blockchain_transaction_id = $1 WHERE id = $2`. -/
def setTxId (deeds : List DeedRow) (id : Nat) (txId : String) : List DeedRow :=
  deeds.map fun r =>
    if r.id == id then { r with blockchain_transaction_id := some txId } else r

/-- The express-validator 400 response of the create handler. -/
def validation400 : Response :=
  ⟨400, [("errors", .s "validation errors")]⟩

/-- The 201 response of the create handler. -/
def created201 (row : DeedRow) : Response :=
  ⟨201, [("message", .s "Deed created successfully"), ("deed", .deed row)]⟩

/-- The 409 response of the create handler. -/
def conflict409 : Response :=
  ⟨409, [("error", .s "Deed with this number already exists")]⟩

/-- `POST /create` (after the role middleware): validates the required
fields, rejects a duplicate deed number, computes the SHA-256 of the
uploaded document locally, tries the IPFS upload (a failure is logged
and the flow continues), inserts the relational row — the operation of
record — and then tries the blockchain mirror: on a synthetic or live
success the row's `blockchain_transaction_id` is filled in, on a thrown
error the flow continues with the row as inserted.  The JS clock and the
chaincode clock are threaded as one `now`.  On a live submission the
chaincode result payload is empty, so the recorded transaction id is the
empty string. -/
def routeCreateDeed (st : RegState) (user : Int) (req : CreateReq)
    (file : Option (List Nat)) (sha256 : List Nat → List Nat)
    (ipfs : IpfsOutcome) (chain : ChainLeg) (now : Nat) :
    RegState × Response :=
  match req.owner_id with
  | none => (st, validation400)
  | some ownerId =>
    if req.deed_number = "" ∨ req.title = "" ∨ req.property_address = ""
        ∨ req.extent = "" then
      (st, validation400)
    else if st.deeds.any (fun r => r.deed_number == req.deed_number) then
      (st, conflict409)
    else
      let document_hash := file.map fun buf => Hex.hexEncode (sha256 buf)
      let ipfs_hash := match file, ipfs with
        | some _, .ok stored => some stored
        | _, _ => none
      let row : DeedRow :=
        { id := st.nextDeedId, deed_number := req.deed_number,
          title := req.title, description := req.description,
          owner_id := ownerId, property_address := req.property_address,
          survey_plan_number := req.survey_plan_number, extent := req.extent,
          boundaries := req.boundaries, document_hash := document_hash,
          ipfs_hash := ipfs_hash, blockchain_transaction_id := none,
          verification_status := "pending", created_by := user,
          verified_by := none, created_at := now, updated_at := now }
      let st1 := { st with deeds := st.deeds ++ [row],
                           nextDeedId := st.nextDeedId + 1 }
      match chain with
      | .failed => (st1, created201 row)
      | .mock _ =>
          let txId := BlockchainSvc.mockCreateTxId now
          ({ st1 with deeds := setTxId st1.deeds row.id txId },
           created201 { row with blockchain_transaction_id := some txId })
      | .live =>
          match LandLedger.CreateDeed st1.ledger now (livePayload req ownerId) with
          | .error _ => (st1, created201 row)
          | .ok w' =>
              ({ st1 with ledger := w', deeds := setTxId st1.deeds row.id "" },
               created201 { row with blockchain_transaction_id := some "" })

/-- `POST /:id/verify` (after the role middleware): validates the
decision, loads the deed — with no check whatsoever on its current
verification status — then unconditionally overwrites the verification
fields, appends a `verification_logs` row, and reports success.  The
blockchain mirror (`BlockchainService.verifyDeed`) either synthesizes a
mock envelope or submits the chaincode function `VerifyDeed`, which the
contract does not define, so a live submission always throws and is
caught; either way it changes no state here and a failure does not
change the response. -/
def routeVerifyDeed (st : RegState) (user : Int) (id : Nat)
    (verification_result : String) (notes : Option String) (now : Nat) :
    RegState × Response :=
  if verification_result ≠ "verified" ∧ verification_result ≠ "rejected" then
    (st, validation400)
  else
    match st.deeds.find? (fun r => r.id == id) with
    | none => (st, ⟨404, [("error", .s "Deed not found")]⟩)
    | some _deed =>
        let deeds' := st.deeds.map fun r =>
          if r.id == id then
            { r with verification_status := verification_result,
                     verified_by := some user, updated_at := now }
          else r
        let log : LogRow :=
          { id := st.nextLogId, deed_id := id, verified_by := user,
            verification_type := "manual_verification",
            verification_result := verification_result, notes := notes,
            created_at := now }
        ({ st with deeds := deeds', logs := st.logs ++ [log],
                   nextLogId := st.nextLogId + 1 },
         ⟨200, [("message", .s "Deed verification completed successfully"),
                ("verification_result", .s verification_result)]⟩)

/-- How many `deeds` rows carry the given deed number. -/
def relNumberCount (deeds : List DeedRow) (n : String) : Nat :=
  deeds.countP fun r => r.deed_number == n

/-- How many world-state entries hold a deed record carrying the given
deed number. -/
def ledNumberCount (w : LandLedger.WorldState) (n : String) : Nat :=
  w.countP fun p =>
    match p.2 with
    | .deed d => d.deedNumber == n
    | _ => false

/-- One step of the subsystem: a create or a verify request. -/
inductive RStep : RegState → RegState → Prop
  | create (st : RegState) (user : Int) (req : CreateReq)
      (file : Option (List Nat)) (sha256 : List Nat → List Nat)
      (ipfs : IpfsOutcome) (chain : ChainLeg) (now : Nat) :
      RStep st (routeCreateDeed st user req file sha256 ipfs chain now).1
  | verify (st : RegState) (user : Int) (id : Nat)
      (verification_result : String) (notes : Option String) (now : Nat) :
      RStep st (routeVerifyDeed st user id verification_result notes now).1

/-- The states reachable from the initial state through the subsystem's
operations. -/
inductive RReachable : RegState → Prop
  | init : RReachable initState
  | step {st st' : RegState} : RReachable st → RStep st st' → RReachable st'

/-- A create request used by the concrete runs below. -/
def degradedReq : CreateReq :=
  { deed_number := "LD-9", title := "Lot 9", description := none,
    owner_id := some 1, property_address := "9 High St",
    survey_plan_number := none, extent := "1 acre", boundaries := none }

/-- **C3, counterexample.**  A concrete create with an attachment, run
with both the Document Store call and the Ledger Gateway call failing:
the request succeeds (201) and the body's field set is exactly
`message`, `deed` — there is no degraded flag of any name on the
response, contradicting the claim that the response is flagged as
degraded. -/
theorem createDeed_degraded_unflagged_counterexample :
    ((routeCreateDeed initState 2 degradedReq (some [1, 2, 3])
        (fun _ => [0]) .failed .failed 10).2).status = 201
    ∧ ((routeCreateDeed initState 2 degradedReq (some [1, 2, 3])
        (fun _ => [0]) .failed .failed 10).2).body.map Prod.fst
        = ["message", "deed"]
    ∧ ((routeCreateDeed initState 2 degradedReq (some [1, 2, 3])
        (fun _ => [0]) .failed .failed 10).2).body.lookup "degraded" = none
    ∧ ((routeCreateDeed initState 2 degradedReq (some [1, 2, 3])
        (fun _ => [0]) .failed .failed 10).2).body.lookup "ledgerStatus"
        = none := by
  refine ⟨rfl, rfl, ?_, ?_⟩ <;> decide

/-- **C3, amended.**  For every create request with all required fields
and an attachment, whatever the Document Store and Ledger Gateway
outcomes — including either or both calls failing — `createDeed` still
succeeds, and the stored relational row carries the lowercase
hex-encoded SHA-256 digest of the attachment bytes computed locally
(the digest expression does not depend on the backend outcomes); the
successful response, however, is not flagged as degraded: its body
carries exactly the fields `message` and `deed`. -/
theorem createDeed_degraded_hash_retention (st : RegState) (user : Int)
    (req : CreateReq) (buf : List Nat) (sha256 : List Nat → List Nat)
    (ipfs : IpfsOutcome) (chain : ChainLeg) (now : Nat) (ownerId : Int)
    (hown : req.owner_id = some ownerId)
    (hval : ¬ (req.deed_number = "" ∨ req.title = ""
        ∨ req.property_address = "" ∨ req.extent = ""))
    (hdup : st.deeds.any (fun r => r.deed_number == req.deed_number)
        = false) :
    ((routeCreateDeed st user req (some buf) sha256 ipfs chain now).2).status
        = 201
    ∧ (∃ row ∈ (routeCreateDeed st user req (some buf) sha256 ipfs chain
          now).1.deeds,
        row.id = st.nextDeedId ∧ row.deed_number = req.deed_number
        ∧ row.document_hash = some (Hex.hexEncode (sha256 buf)))
    ∧ (Hex.hexEncode (sha256 buf)).toList.all Hex.isLowerHexChar = true
    ∧ ((routeCreateDeed st user req (some buf) sha256 ipfs chain
        now).2).body.map Prod.fst = ["message", "deed"] := by
  simp only [routeCreateDeed, hown]
  rw [if_neg hval, if_neg (by simp [hdup])]
  cases chain with
  | failed =>
      refine ⟨rfl, ⟨_, List.mem_append_right _ (List.mem_singleton.mpr rfl),
        rfl, rfl, rfl⟩, Hex.hexEncode_lower _, rfl⟩
  | mock r =>
      refine ⟨rfl, ⟨_, List.mem_map_of_mem _
        (List.mem_append_right _ (List.mem_singleton.mpr rfl)), ?_⟩,
        Hex.hexEncode_lower _, rfl⟩
      simp
  | live =>
      cases hcd : LandLedger.CreateDeed st.ledger now (livePayload req ownerId) with
      | error e =>
          simp only [hcd]
          refine ⟨rfl, ⟨_, List.mem_append_right _ (List.mem_singleton.mpr rfl),
            rfl, rfl, rfl⟩, Hex.hexEncode_lower _, rfl⟩
      | ok w' =>
          simp only [hcd]
          refine ⟨rfl, ⟨_, List.mem_map_of_mem _
            (List.mem_append_right _ (List.mem_singleton.mpr rfl)), ?_⟩,
            Hex.hexEncode_lower _, rfl⟩
          simp

/-- Witness for C3 (amended): the degraded concrete run of the
counterexample still records the digest of `[1, 2, 3]` under the
threaded hash primitive. -/
theorem createDeed_degraded_hash_retention_witness :
    ((routeCreateDeed initState 2 degradedReq (some [1, 2, 3])
        (fun _ => [0]) .failed .failed 10).2).status = 201
    ∧ (∃ row ∈ (routeCreateDeed initState 2 degradedReq (some [1, 2, 3])
          (fun _ => [0]) .failed .failed 10).1.deeds,
        row.id = initState.nextDeedId ∧ row.deed_number = "LD-9"
        ∧ row.document_hash = some (Hex.hexEncode [0]))
    ∧ (Hex.hexEncode [0]).toList.all Hex.isLowerHexChar = true
    ∧ ((routeCreateDeed initState 2 degradedReq (some [1, 2, 3])
        (fun _ => [0]) .failed .failed 10).2).body.map Prod.fst
        = ["message", "deed"] :=
  createDeed_degraded_hash_retention initState 2 degradedReq [1, 2, 3]
    (fun _ => [0]) .failed .failed 10 1 rfl (by decide) (by decide)

/-- A deed row already in a terminal verification state, for the C4
runs. -/
def verifiedRow : DeedRow :=
  { id := 1, deed_number := "LD-1", title := "Lot 1", description := none,
    owner_id := 1, property_address := "1 Main St",
    survey_plan_number := none, extent := "1 acre", boundaries := none,
    document_hash := none, ipfs_hash := none,
    blockchain_transaction_id := none, verification_status := "verified",
    created_by := 2, verified_by := some 2, created_at := 1,
    updated_at := 1 }

/-- A state holding only the already-verified deed. -/
def terminalState : RegState :=
  { deeds := [verifiedRow], logs := [], nextDeedId := 2, nextLogId := 1,
    ledger := [] }

/-- **C4, counterexample.**  Submitting a new decision on a deed whose
verification status is already terminal (`verified`) does not fail with
any `InvalidState` error: the handler answers 200, overwrites the
verification status (here flipping `verified` to `rejected`), replaces
the verifier reference and update timestamp, and appends a fresh log
row. -/
theorem verifyDeed_terminal_accepts_counterexample :
    ((routeVerifyDeed terminalState 9 1 "rejected" none 50).2).status = 200
    ∧ (routeVerifyDeed terminalState 9 1 "rejected" none 50).1.deeds
        = [{ verifiedRow with
              verification_status := "rejected",
              verified_by := some 9, updated_at := 50 }]
    ∧ (routeVerifyDeed terminalState 9 1 "rejected" none 50).1.logs.length
        = 1 := by
  refine ⟨rfl, ?_, rfl⟩
  decide

/-- **C4, amended.**  The verify handler accepts a new verification
decision regardless of the deed's current verification status — there is
no `InvalidState` guard.  In particular for a deed whose status is
already terminal (`verified`, `rejected` or `transferred`): the request
succeeds with 200, the deed's verification status is overwritten with
the new decision, the verifier reference and the update timestamp are
replaced, rows with other ids are untouched, and exactly one
`verification_logs` row is appended. -/
theorem verifyDeed_overwrites_terminal (st : RegState) (user : Int)
    (id : Nat) (result : String) (notes : Option String) (now : Nat)
    (row : DeedRow)
    (hfind : st.deeds.find? (fun r => r.id == id) = some row)
    (hres : result = "verified" ∨ result = "rejected")
    (hterm : row.verification_status = "verified"
        ∨ row.verification_status = "rejected"
        ∨ row.verification_status = "transferred") :
    ((routeVerifyDeed st user id result notes now).2).status = 200
    ∧ (∀ r ∈ (routeVerifyDeed st user id result notes now).1.deeds,
        r.id = id →
          r.verification_status = result ∧ r.verified_by = some user
            ∧ r.updated_at = now)
    ∧ (∀ r ∈ (routeVerifyDeed st user id result notes now).1.deeds,
        r.id ≠ id → r ∈ st.deeds)
    ∧ (routeVerifyDeed st user id result notes now).1.logs
        = st.logs ++
          [{ id := st.nextLogId, deed_id := id, verified_by := user,
             verification_type := "manual_verification",
             verification_result := result, notes := notes,
             created_at := now }] := by
  have hv : ¬ (result ≠ "verified" ∧ result ≠ "rejected") := by
    rcases hres with rfl | rfl <;> simp
  simp only [routeVerifyDeed, if_neg hv, hfind]
  refine ⟨trivial, ?_, ?_, trivial⟩
  · intro r hr hrid
    obtain ⟨a, ha, rfl⟩ := List.mem_map.mp hr
    by_cases hai : a.id = id
    · simp [hai]
    · simp [hai] at hrid
  · intro r hr hrid
    obtain ⟨a, ha, rfl⟩ := List.mem_map.mp hr
    by_cases hai : a.id = id
    · simp [hai] at hrid
    · simpa [hai] using ha

theorem countP_filter_le {α : Type} (p q : α → Bool) (l : List α) :
    (l.filter q).countP p ≤ l.countP p := by
  induction l with
  | nil => simp
  | cons a tl ih =>
      rw [List.filter_cons]
      by_cases h : q a = true
      · rw [if_pos h, List.countP_cons, List.countP_cons]
        exact Nat.add_le_add ih (Nat.le_refl _)
      · rw [if_neg h, List.countP_cons]
        exact Nat.le_trans ih (Nat.le_add_right _ _)

theorem ledCount_putState_le_succ (w : LandLedger.WorldState)
    (k : LandLedger.LKey) (v : LandLedger.StoredVal) (n : String) :
    ledNumberCount (LandLedger.putState w k v) n ≤ ledNumberCount w n + 1 := by
  unfold ledNumberCount LandLedger.putState
  rw [List.countP_cons]
  have h := countP_filter_le
    (fun p : LandLedger.LKey × LandLedger.StoredVal =>
      match p.2 with
      | LandLedger.StoredVal.deed d => d.deedNumber == n
      | _ => false)
    (fun p => p.1 != k) w
  split <;> omega

theorem ledCount_putState_deedID (w : LandLedger.WorldState)
    (k : LandLedger.LKey) (i : String) (n : String) :
    ledNumberCount (LandLedger.putState w k (.deedID i)) n
      ≤ ledNumberCount w n := by
  unfold ledNumberCount LandLedger.putState
  rw [List.countP_cons]
  simpa using countP_filter_le
    (fun p : LandLedger.LKey × LandLedger.StoredVal =>
      match p.2 with
      | LandLedger.StoredVal.deed d => d.deedNumber == n
      | _ => false)
    (fun p => p.1 != k) w

theorem ledCount_putState_deed_ne (w : LandLedger.WorldState)
    (k : LandLedger.LKey) (d : LandLedger.Deed) (n : String)
    (hd : (d.deedNumber == n) = false) :
    ledNumberCount (LandLedger.putState w k (.deed d)) n
      ≤ ledNumberCount w n := by
  unfold ledNumberCount LandLedger.putState
  rw [List.countP_cons]
  simpa [hd] using countP_filter_le
    (fun p : LandLedger.LKey × LandLedger.StoredVal =>
      match p.2 with
      | LandLedger.StoredVal.deed d => d.deedNumber == n
      | _ => false)
    (fun p => p.1 != k) w

theorem relCount_append_singleton (l : List DeedRow) (r : DeedRow)
    (n : String) :
    relNumberCount (l ++ [r]) n
      = relNumberCount l n + (if r.deed_number == n then 1 else 0) := by
  unfold relNumberCount
  rw [List.countP_append, List.countP_cons]
  simp

theorem relCount_map_preserve (l : List DeedRow) (f : DeedRow → DeedRow)
    (n : String) (hf : ∀ r, (f r).deed_number = r.deed_number) :
    relNumberCount (l.map f) n = relNumberCount l n := by
  unfold relNumberCount
  induction l with
  | nil => rfl
  | cons a tl ih => rw [List.map_cons, List.countP_cons, List.countP_cons, ih, hf]

/-- The uniqueness invariant of C2: every deed number identifies at most
one relational row, and the ledger never holds more deed records
carrying a number than the relational store does (hence also at most
one). -/
def RegInv (st : RegState) : Prop :=
  ∀ n, relNumberCount st.deeds n ≤ 1
    ∧ ledNumberCount st.ledger n ≤ relNumberCount st.deeds n

theorem setTxId_preserves_number (id : Nat) (tx : String) :
    ∀ r : DeedRow,
      ((fun r => if r.id == id
          then { r with blockchain_transaction_id := some tx } else r) r
        ).deed_number = r.deed_number := by
  intro r
  by_cases h : (r.id == id) = true <;> simp [h]

theorem relCount_setTxId (l : List DeedRow) (id : Nat) (tx : String)
    (n : String) :
    relNumberCount (setTxId l id tx) n = relNumberCount l n :=
  relCount_map_preserve l _ n (setTxId_preserves_number id tx)

theorem inv_insert_ledger (deeds : List DeedRow)
    (w w' : LandLedger.WorldState) (row : DeedRow) (num : String)
    (hnum : row.deed_number = num)
    (hinv : ∀ n, relNumberCount deeds n ≤ 1
      ∧ ledNumberCount w n ≤ relNumberCount deeds n)
    (h0 : relNumberCount deeds num = 0)
    (hw1 : ∀ n, (num == n) = true →
      ledNumberCount w' n ≤ ledNumberCount w n + 1)
    (hw2 : ∀ n, (num == n) = false →
      ledNumberCount w' n ≤ ledNumberCount w n) :
    ∀ n, relNumberCount (deeds ++ [row]) n ≤ 1
      ∧ ledNumberCount w' n ≤ relNumberCount (deeds ++ [row]) n := by
  subst hnum
  intro n
  obtain ⟨h1, h2⟩ := hinv n
  rw [relCount_append_singleton]
  by_cases hn : (row.deed_number == n) = true
  · have hn' : row.deed_number = n := by simpa using hn
    subst hn'
    rw [if_pos hn, h0]
    have hb := hw1 row.deed_number (by simp)
    rw [h0] at h2
    exact ⟨by omega, by omega⟩
  · have hnf : (row.deed_number == n) = false := by simpa using hn
    rw [if_neg hn]
    have hb := hw2 n hnf
    exact ⟨by omega, by omega⟩

theorem inv_insert (deeds : List DeedRow) (w : LandLedger.WorldState)
    (row : DeedRow) (num : String) (hnum : row.deed_number = num)
    (hinv : ∀ n, relNumberCount deeds n ≤ 1
      ∧ ledNumberCount w n ≤ relNumberCount deeds n)
    (h0 : relNumberCount deeds num = 0) :
    ∀ n, relNumberCount (deeds ++ [row]) n ≤ 1
      ∧ ledNumberCount w n ≤ relNumberCount (deeds ++ [row]) n :=
  inv_insert_ledger deeds w w row num hnum hinv h0
    (fun n _ => Nat.le_add_right _ _) (fun n _ => Nat.le_refl _)

theorem routeCreateDeed_inv (st : RegState) (user : Int) (req : CreateReq)
    (file : Option (List Nat)) (sha256 : List Nat → List Nat)
    (ipfs : IpfsOutcome) (chain : ChainLeg) (now : Nat)
    (hinv : RegInv st) :
    RegInv (routeCreateDeed st user req file sha256 ipfs chain now).1 := by
  cases hown : req.owner_id with
  | none =>
      simpa [routeCreateDeed, hown] using hinv
  | some ownerId =>
      by_cases hval : (req.deed_number = "" ∨ req.title = ""
          ∨ req.property_address = "" ∨ req.extent = "")
      · simp only [routeCreateDeed, hown]
        rw [if_pos hval]
        exact hinv
      · by_cases hdup : (st.deeds.any fun r =>
            r.deed_number == req.deed_number) = true
        · simp only [routeCreateDeed, hown]
          rw [if_neg hval, if_pos hdup]
          exact hinv
        · have hdup0 : relNumberCount st.deeds req.deed_number = 0 := by
            unfold relNumberCount
            rw [List.countP_eq_zero]
            intro a ha hpa
            exact hdup (List.any_eq_true.mpr ⟨a, ha, hpa⟩)
          simp only [routeCreateDeed, hown]
          rw [if_neg hval, if_neg hdup]
          cases chain with
          | failed =>
              dsimp only
              exact inv_insert st.deeds st.ledger _ req.deed_number rfl
                hinv hdup0
          | mock r =>
              dsimp only
              intro n
              rw [relCount_setTxId]
              exact inv_insert st.deeds st.ledger _ req.deed_number rfl
                hinv hdup0 n
          | live =>
              dsimp only
              cases hcd : LandLedger.CreateDeed st.ledger now
                  (livePayload req ownerId) with
              | error e =>
                  simp only [hcd]
                  exact inv_insert st.deeds st.ledger _ req.deed_number rfl
                    hinv hdup0
              | ok w' =>
                  have hw' : w' = LandLedger.putState
                      (LandLedger.putState st.ledger
                        (.simple (livePayload req ownerId).id)
                        (.deed { livePayload req ownerId with
                          createdAt := now, updatedAt := now,
                          status := "pending",
                          verificationStatus := "pending" }))
                      (LandLedger.deedNumberKey
                        (livePayload req ownerId).deedNumber)
                      (.deedID (livePayload req ownerId).id) := by
                    unfold LandLedger.CreateDeed at hcd
                    by_cases hex : LandLedger.deedExists st.ledger
                        (livePayload req ownerId).id = true
                    · rw [if_pos hex] at hcd
                      exact absurd hcd (by simp)
                    · rw [if_neg hex] at hcd
                      simpa using hcd.symm
                  simp only [hcd]
                  intro n
                  rw [relCount_setTxId]
                  refine inv_insert_ledger st.deeds st.ledger w' _
                    req.deed_number rfl hinv hdup0 ?_ ?_ n
                  · intro m _
                    rw [hw']
                    exact Nat.le_trans
                      (ledCount_putState_deedID _ _ _ _)
                      (ledCount_putState_le_succ _ _ _ _)
                  · intro m hm
                    rw [hw']
                    exact Nat.le_trans
                      (ledCount_putState_deedID _ _ _ _)
                      (ledCount_putState_deed_ne _ _ _ _ hm)

theorem routeVerifyDeed_inv (st : RegState) (user : Int) (id : Nat)
    (result : String) (notes : Option String) (now : Nat)
    (hinv : RegInv st) :
    RegInv (routeVerifyDeed st user id result notes now).1 := by
  unfold routeVerifyDeed
  by_cases hv : (result ≠ "verified" ∧ result ≠ "rejected")
  · rw [if_pos hv]
    exact hinv
  · rw [if_neg hv]
    cases hf : st.deeds.find? (fun r => r.id == id) with
    | none => exact hinv
    | some row =>
        intro n
        obtain ⟨h1, h2⟩ := hinv n
        have hmap : ∀ r : DeedRow,
            ((fun r => if r.id == id
                then { r with verification_status := result,
                              verified_by := some user,
                              updated_at := now } else r) r).deed_number
              = r.deed_number := by
          intro r
          by_cases h : (r.id == id) = true <;> simp [h]
        constructor
        · rw [relCount_map_preserve _ _ _ hmap]
          exact h1
        · rw [relCount_map_preserve _ _ _ hmap]
          exact h2

theorem rreachable_inv (st : RegState) (h : RReachable st) : RegInv st := by
  induction h with
  | init =>
      intro n
      constructor <;> simp [initState, relNumberCount, ledNumberCount]
  | step _ hstep ih =>
      cases hstep with
      | create user req file sha256 ipfs chain now =>
          exact routeCreateDeed_inv _ user req file sha256 ipfs chain now ih
      | verify user id result notes now =>
          exact routeVerifyDeed_inv _ user id result notes now ih

/-- **C2, counterexample.**  A concrete reachable run refuting the claim
as stated: the first create of number `LD-9` runs with the Ledger
Gateway in mock mode (a synthetic success, no ledger write); the second
create of the same number then fails with Conflict and changes nothing —
but after that failed attempt the ledger holds zero records for `LD-9`,
not exactly one as the claim asserts. -/
theorem deedNumber_unique_ledger_counterexample :
    ((routeCreateDeed (routeCreateDeed initState 2 degradedReq none
        (fun _ => []) .failed (.mock 5) 10).1 3 degradedReq none
        (fun _ => []) .failed (.mock 5) 11).2).status = 409
    ∧ (routeCreateDeed (routeCreateDeed initState 2 degradedReq none
        (fun _ => []) .failed (.mock 5) 10).1 3 degradedReq none
        (fun _ => []) .failed (.mock 5) 11).1
      = (routeCreateDeed initState 2 degradedReq none
        (fun _ => []) .failed (.mock 5) 10).1
    ∧ relNumberCount (routeCreateDeed initState 2 degradedReq none
        (fun _ => []) .failed (.mock 5) 10).1.deeds "LD-9" = 1
    ∧ ledNumberCount (routeCreateDeed initState 2 degradedReq none
        (fun _ => []) .failed (.mock 5) 10).1.ledger "LD-9" = 0 := by
  refine ⟨rfl, ?_, rfl, rfl⟩
  decide

/-- **C2, amended.**  At every reachable state, each deed number
identifies at most one deed record in each store: at most one relational
row and at most one ledger deed record carry any given number (the
ledger never holds more records for a number than the relational store).
A create naming an already-used deed number fails with Conflict and
leaves the whole state — both stores, the composite index included —
entirely unchanged, so the relational store still holds exactly one
record for that number; the ledger holds at most one, and may hold none
when the number's ledger mirror ran in mock mode or failed. -/
theorem deedNumber_unique_invariant (st : RegState) (h : RReachable st) :
    (∀ n, relNumberCount st.deeds n ≤ 1
      ∧ ledNumberCount st.ledger n ≤ relNumberCount st.deeds n)
    ∧ (∀ (user : Int) (req : CreateReq) (file : Option (List Nat))
        (sha256 : List Nat → List Nat) (ipfs : IpfsOutcome)
        (chain : ChainLeg) (now : Nat) (ownerId : Int),
        req.owner_id = some ownerId →
        ¬ (req.deed_number = "" ∨ req.title = ""
            ∨ req.property_address = "" ∨ req.extent = "") →
        (st.deeds.any fun r => r.deed_number == req.deed_number) = true →
        routeCreateDeed st user req file sha256 ipfs chain now
            = (st, conflict409)
          ∧ relNumberCount st.deeds req.deed_number = 1) := by
  have hinv := rreachable_inv st h
  refine ⟨hinv, ?_⟩
  intro user req file sha256 ipfs chain now ownerId hown hval hdup
  refine ⟨?_, ?_⟩
  · simp only [routeCreateDeed, hown]
    rw [if_neg hval, if_pos hdup]
  · have hle := (hinv req.deed_number).1
    have hpos : 0 < relNumberCount st.deeds req.deed_number := by
      unfold relNumberCount
      rw [List.countP_pos_iff]
      obtain ⟨a, ha, hpa⟩ := List.any_eq_true.mp hdup
      exact ⟨a, ha, hpa⟩
    omega

/-- Witness for C2 (amended): after one concrete create of `LD-9`, a
second create of `LD-9` is rejected with Conflict, the state is
untouched, and the relational store holds exactly one `LD-9` row. -/
theorem deedNumber_unique_invariant_witness :
    routeCreateDeed (routeCreateDeed initState 2 degradedReq none
        (fun _ => []) .failed (.mock 5) 10).1 3 degradedReq none
        (fun _ => []) .failed (.mock 5) 11
      = ((routeCreateDeed initState 2 degradedReq none
          (fun _ => []) .failed (.mock 5) 10).1, conflict409)
    ∧ relNumberCount (routeCreateDeed initState 2 degradedReq none
        (fun _ => []) .failed (.mock 5) 10).1.deeds "LD-9" = 1 := by
  have h := deedNumber_unique_invariant
    (routeCreateDeed initState 2 degradedReq none
      (fun _ => []) .failed (.mock 5) 10).1
    (RReachable.step RReachable.init
      (RStep.create initState 2 degradedReq none
        (fun _ => []) .failed (.mock 5) 10))
  have h2 := h.2 3 degradedReq none (fun _ => []) .failed (.mock 5) 11 1
    rfl (by decide) (by decide)
  exact ⟨h2.1, h2.2⟩

/-- Witness for C4 (amended) on the concrete terminal state. -/
theorem verifyDeed_overwrites_terminal_witness :
    ((routeVerifyDeed terminalState 9 1 "rejected" none 50).2).status = 200
    ∧ (∀ r ∈ (routeVerifyDeed terminalState 9 1 "rejected" none 50).1.deeds,
        r.id = 1 →
          r.verification_status = "rejected" ∧ r.verified_by = some 9
            ∧ r.updated_at = 50)
    ∧ (∀ r ∈ (routeVerifyDeed terminalState 9 1 "rejected" none 50).1.deeds,
        r.id ≠ 1 → r ∈ terminalState.deeds)
    ∧ (routeVerifyDeed terminalState 9 1 "rejected" none 50).1.logs
        = terminalState.logs ++
          [{ id := 1, deed_id := 1, verified_by := 9,
             verification_type := "manual_verification",
             verification_result := "rejected", notes := none,
             created_at := 50 }] :=
  verifyDeed_overwrites_terminal terminalState 9 1 "rejected" none 50
    verifiedRow (by decide) (Or.inr rfl) (Or.inl rfl)

end Registry

/-! ## Verification-request routes

The create-request and process-request handlers of the verification
route module, over the `land_deeds` and `verification_requests` tables
they query.  `req.user` (set by the token middleware) is passed as an
explicit `User`; generated UUIDs and `CURRENT_TIMESTAMP` as explicit
parameters. -/

namespace Verif

/-- The authenticated caller, as the token middleware attaches it. -/
structure User where
  id : String
  role : String
  deriving Repr, DecidableEq

/-- The columns of `land_deeds` this route module touches. -/
structure LandDeedRow where
  id : String
  deed_number : String
  owner_id : String
  property_address : String
  verification_status : String
  transaction_hash : Option String
  deriving Repr, DecidableEq

/-- A row of `verification_requests`. -/
structure VReqRow where
  id : String
  deed_id : String
  requester_id : String
  request_type : String
  request_details : Option String
  status : String
  response_details : Option String
  processed_by : Option String
  created_at : Nat
  processed_at : Option Nat
  deriving Repr, DecidableEq

/-- The two tables the route module reads and writes. -/
structure VerifState where
  land_deeds : List LandDeedRow
  verification_requests : List VReqRow
  deriving Repr, DecidableEq

/-- A field of a JSON response body. -/
inductive VFieldVal where
  | s (v : String)
  | reqC (id deedId requestType status : String) (createdAt : Nat)
  | reqP (id status : String) (responseDetails : Option String)
      (processedAt : Nat)
  deriving Repr, DecidableEq

/-- An HTTP response: status code and the exact field list of the JSON
body. -/
structure Response where
  status : Nat
  body : List (String × VFieldVal)
  deriving Repr, DecidableEq

/-- `express-validator`'s `isUUID` (any version): 36 characters, dashes
at positions 8, 13, 18 and 23, hex digits elsewhere. -/
def isUUID (s : String) : Bool :=
  let cs := s.toList
  cs.length == 36 &&
    (List.range 36).all fun i =>
      let c := cs.getD i ' '
      if i == 8 || i == 13 || i == 18 || i == 23 then c == '-'
      else c.isDigit || ('a' ≤ c && c ≤ 'f') || ('A' ≤ c && c ≤ 'F')

/-- The `isLength({ max: 1000 })` validator on an optional text field:
true when the field is present and longer than allowed. -/
def detailsTooLong (o : Option String) : Bool :=
  match o with
  | some d => 1000 < d.length
  | none => false

/-- The duplicate-pending guard's row predicate:
`deed_id = $1 AND request_type = $2 AND status = 'pending'`. -/
def pendingPred (deedId requestType : String) (r : VReqRow) : Bool :=
  r.deed_id == deedId && r.request_type == requestType
    && r.status == "pending"

/-- The 400 body both handlers produce on validator failure. -/
def vValidation400 : Response :=
  ⟨400, [("error", .s "Validation Error"),
         ("message", .s "Please check your input")]⟩

/-- The 409 body of the duplicate-pending guard. -/
def vConflict409 : Response :=
  ⟨409, [("error", .s "Conflict"),
         ("message",
          .s "A pending verification request already exists for this deed and type")]⟩

/-- The 400 body of the already-processed guard. -/
def alreadyProcessed400 : Response :=
  ⟨400, [("error", .s "Bad Request"),
         ("message", .s "Request has already been processed")]⟩

/-- `POST /request` (after token middleware): validates the input, loads
the deed, rejects a requester who neither owns the deed nor holds a
non-citizen role, rejects with Conflict when a pending request of the
same kind already exists for the deed, and otherwise inserts a fresh
`pending` request row. -/
def routeCreateRequest (st : VerifState) (user : User) (deedId : String)
    (requestType : String) (requestDetails : Option String)
    (newId : String) (now : Nat) : VerifState × Response :=
  if ¬ (isUUID deedId = true)
      ∨ (requestType ≠ "ownership" ∧ requestType ≠ "authenticity"
          ∧ requestType ≠ "history")
      ∨ detailsTooLong requestDetails = true then
    (st, vValidation400)
  else
    match st.land_deeds.find? (fun d => d.id == deedId) with
    | none =>
        (st, ⟨404, [("error", .s "Not Found"),
                    ("message", .s "Deed not found")]⟩)
    | some deed =>
        if deed.owner_id ≠ user.id ∧ user.role = "citizen" then
          (st, ⟨403,
            [("error", .s "Forbidden"),
             ("message",
              .s "You do not have permission to request verification for this deed")]⟩)
        else if st.verification_requests.any (pendingPred deedId requestType) then
          (st, vConflict409)
        else
          let row : VReqRow :=
            { id := newId, deed_id := deedId, requester_id := user.id,
              request_type := requestType,
              request_details := requestDetails, status := "pending",
              response_details := none, processed_by := none,
              created_at := now, processed_at := none }
          ({ st with verification_requests :=
              st.verification_requests ++ [row] },
           ⟨201, [("message", .s "Verification request created successfully"),
                  ("request", .reqC newId deedId requestType "pending" now)]⟩)

/-- The row update the process handler applies:
`SET status, response_details, processed_at, processed_by WHERE id`. -/
def processUpdate (reqId status : String) (responseDetails : Option String)
    (now : Nat) (user : User) (r : VReqRow) : VReqRow :=
  if r.id == reqId then
    { r with status := status, response_details := responseDetails,
             processed_at := some now, processed_by := some user.id }
  else r

/-- `PUT /requests/:id/process` (after token middleware): validates the
decision, loads the request joined with its deed (the join makes a
missing deed indistinguishable from a missing request), rejects with the
already-processed error when the request's status is not `pending`, and
otherwise stamps the decision, response details, processing time and
processor onto the request row — and nothing else: no deed row and no
log is touched. -/
def routeProcessRequest (st : VerifState) (user : User) (reqId : String)
    (status : String) (responseDetails : Option String) (now : Nat) :
    VerifState × Response :=
  if (status ≠ "approved" ∧ status ≠ "rejected")
      ∨ detailsTooLong responseDetails = true then
    (st, vValidation400)
  else
    match st.verification_requests.find? (fun r => r.id == reqId) with
    | none =>
        (st, ⟨404, [("error", .s "Not Found"),
                    ("message", .s "Verification request not found")]⟩)
    | some vr =>
        match st.land_deeds.find? (fun d => d.id == vr.deed_id) with
        | none =>
            (st, ⟨404, [("error", .s "Not Found"),
                        ("message", .s "Verification request not found")]⟩)
        | some _deed =>
            if vr.status ≠ "pending" then
              (st, alreadyProcessed400)
            else
              let reqs' := st.verification_requests.map
                (processUpdate reqId status responseDetails now user)
              ({ st with verification_requests := reqs' },
               ⟨200, [("message",
                       .s "Verification request processed successfully"),
                      ("request", .reqP reqId status responseDetails now)]⟩)

/-- How many pending requests exist for a (deed, kind) pair. -/
def pendingCount (st : VerifState) (deedId kind : String) : Nat :=
  st.verification_requests.countP (pendingPred deedId kind)

/-- One step of the subsystem: creating a request, processing a request,
or any rewrite of the `land_deeds` table by the rest of the backend
(deed creation and verification live outside this route module). -/
inductive VStep : VerifState → VerifState → Prop
  | createReq (st : VerifState) (user : User) (deedId requestType : String)
      (requestDetails : Option String) (newId : String) (now : Nat) :
      VStep st (routeCreateRequest st user deedId requestType
        requestDetails newId now).1
  | processReq (st : VerifState) (user : User) (reqId status : String)
      (responseDetails : Option String) (now : Nat) :
      VStep st (routeProcessRequest st user reqId status
        responseDetails now).1
  | deedsWrite (st : VerifState) (deeds' : List LandDeedRow) :
      VStep st ⟨deeds', st.verification_requests⟩

/-- The states reachable from an initial state with no requests. -/
inductive VReachable : VerifState → Prop
  | init (deeds : List LandDeedRow) : VReachable ⟨deeds, []⟩
  | step {st st' : VerifState} : VReachable st → VStep st st' → VReachable st'

theorem processUpdate_id (reqId status : String) (rd : Option String)
    (now : Nat) (user : User) (r : VReqRow) :
    (processUpdate reqId status rd now user r).id = r.id := by
  unfold processUpdate
  split <;> rfl

theorem find?_id_map (l : List VReqRow) (qid : String) (f : VReqRow → VReqRow)
    (hf : ∀ r, (f r).id = r.id) (vr : VReqRow)
    (h : l.find? (fun r => r.id == qid) = some vr) :
    (l.map f).find? (fun r => r.id == qid) = some (f vr) := by
  induction l with
  | nil => cases h
  | cons a tl ih =>
      rw [List.map_cons]
      by_cases ha : (a.id == qid) = true
      · rw [List.find?_cons_of_pos (p := fun r : VReqRow => r.id == qid) _
          (by show ((f a).id == qid) = true; rw [hf]; exact ha)]
        rw [List.find?_cons_of_pos (p := fun r : VReqRow => r.id == qid) _ ha]
          at h
        injection h with h
        rw [h]
      · rw [List.find?_cons_of_neg (p := fun r : VReqRow => r.id == qid) _
          (by show ¬ ((f a).id == qid) = true; rw [hf]; exact ha)]
        rw [List.find?_cons_of_neg (p := fun r : VReqRow => r.id == qid) _ ha]
          at h
        exact ih h

/-- **C5.**  For every verification request joined with an existing
deed: processing it when its status is not `pending` fails with the
already-processed error and changes neither the request table nor the
deed table (the state is returned untouched); processing it while
`pending` stamps the decision, the response details, the processing time
and the processor onto the request row and touches nothing else — and a
second processing of the same request then fails with the
already-processed error and changes nothing, so the stored state
reflects only the first decision. -/
theorem processRequest_exactly_once (st : VerifState) (user user2 : User)
    (reqId status status2 : String) (rd rd2 : Option String)
    (now now2 : Nat) (vr : VReqRow) (dd : LandDeedRow)
    (hfind : st.verification_requests.find? (fun r => r.id == reqId)
      = some vr)
    (hdeed : st.land_deeds.find? (fun d => d.id == vr.deed_id) = some dd)
    (hval : status = "approved" ∨ status = "rejected")
    (hdet : detailsTooLong rd = false)
    (hval2 : status2 = "approved" ∨ status2 = "rejected")
    (hdet2 : detailsTooLong rd2 = false) :
    (vr.status ≠ "pending" →
      routeProcessRequest st user reqId status rd now
        = (st, alreadyProcessed400))
    ∧ (vr.status = "pending" →
      routeProcessRequest st user reqId status rd now
        = ({ st with
              verification_requests := st.verification_requests.map
                (processUpdate reqId status rd now user) },
           ⟨200, [("message",
                   .s "Verification request processed successfully"),
                  ("request", .reqP reqId status rd now)]⟩)
      ∧ routeProcessRequest
            (routeProcessRequest st user reqId status rd now).1 user2 reqId
            status2 rd2 now2
          = ((routeProcessRequest st user reqId status rd now).1,
             alreadyProcessed400)) := by
  have hcond : ¬ ((status ≠ "approved" ∧ status ≠ "rejected")
      ∨ detailsTooLong rd = true) := by
    rintro (⟨h1, h2⟩ | h3)
    · rcases hval with rfl | rfl
      · exact h1 rfl
      · exact h2 rfl
    · rw [hdet] at h3
      cases h3
  have hcond2 : ¬ ((status2 ≠ "approved" ∧ status2 ≠ "rejected")
      ∨ detailsTooLong rd2 = true) := by
    rintro (⟨h1, h2⟩ | h3)
    · rcases hval2 with rfl | rfl
      · exact h1 rfl
      · exact h2 rfl
    · rw [hdet2] at h3
      cases h3
  constructor
  · intro hne
    simp only [routeProcessRequest, if_neg hcond, hfind, hdeed, if_pos hne]
  · intro hpend
    have hsne : status ≠ "pending" := by
      rcases hval with rfl | rfl <;> simp
    have hrun : routeProcessRequest st user reqId status rd now
        = ({ st with
              verification_requests := st.verification_requests.map
                (processUpdate reqId status rd now user) },
           ⟨200, [("message",
                   .s "Verification request processed successfully"),
                  ("request", .reqP reqId status rd now)]⟩) := by
      simp only [routeProcessRequest, if_neg hcond, hfind, hdeed,
        if_neg (show ¬ vr.status ≠ "pending" by simp [hpend])]
    refine ⟨hrun, ?_⟩
    rw [hrun]
    have hpid : (vr.id == reqId) = true :=
      List.find?_some (p := fun r : VReqRow => r.id == reqId) hfind
    have hupd : processUpdate reqId status rd now user vr
        = { vr with status := status, response_details := rd,
                    processed_at := some now,
                    processed_by := some user.id } := by
      simp [processUpdate, hpid]
    have hfind2 : (st.verification_requests.map
          (processUpdate reqId status rd now user)).find?
          (fun r => r.id == reqId)
        = some (processUpdate reqId status rd now user vr) :=
      find?_id_map _ _ _ (processUpdate_id reqId status rd now user) vr hfind
    rw [hupd] at hfind2
    simp only [routeProcessRequest, if_neg hcond2, hfind2, hdeed,
      if_pos hsne]

theorem countP_map_le {α : Type} (l : List α) (f : α → α) (p : α → Bool)
    (h : ∀ x, p (f x) = true → p x = true) :
    (l.map f).countP p ≤ l.countP p := by
  induction l with
  | nil => simp
  | cons a tl ih =>
      rw [List.map_cons, List.countP_cons, List.countP_cons]
      by_cases hp : p (f a) = true
      · rw [if_pos hp, if_pos (h a hp)]
        omega
      · rw [if_neg hp]
        split <;> omega

theorem pending_insert_le (l : List VReqRow) (row : VReqRow)
    (hinv : ∀ d k, l.countP (pendingPred d k) ≤ 1)
    (h0 : l.countP (pendingPred row.deed_id row.request_type) = 0) :
    ∀ d k, (l ++ [row]).countP (pendingPred d k) ≤ 1 := by
  intro d k
  rw [List.countP_append]
  by_cases hm : pendingPred d k row = true
  · have hm' := hm
    unfold pendingPred at hm'
    rw [Bool.and_eq_true, Bool.and_eq_true] at hm'
    have hd : row.deed_id = d := by simpa using hm'.1.1
    have hk : row.request_type = k := by simpa using hm'.1.2
    subst hd
    subst hk
    have hone : List.countP
        (pendingPred row.deed_id row.request_type) [row] ≤ 1 :=
      Nat.le_trans (List.countP_le_length _) (by simp)
    omega
  · have hz : List.countP (pendingPred d k) [row] = 0 := by
      rw [List.countP_eq_zero]
      intro a ha
      rw [List.mem_singleton] at ha
      subst ha
      exact hm
    have := hinv d k
    omega

theorem routeCreateRequest_pending_inv (st : VerifState) (user : User)
    (deedId requestType : String) (requestDetails : Option String)
    (newId : String) (now : Nat)
    (hinv : ∀ d k, pendingCount st d k ≤ 1) :
    ∀ d k, pendingCount (routeCreateRequest st user deedId requestType
      requestDetails newId now).1 d k ≤ 1 := by
  unfold routeCreateRequest
  by_cases hv : (¬ (isUUID deedId = true)
      ∨ (requestType ≠ "ownership" ∧ requestType ≠ "authenticity"
          ∧ requestType ≠ "history")
      ∨ detailsTooLong requestDetails = true)
  · rw [if_pos hv]
    exact hinv
  · rw [if_neg hv]
    cases hf : st.land_deeds.find? (fun d => d.id == deedId) with
    | none => exact hinv
    | some deed =>
        dsimp only
        by_cases hperm : (deed.owner_id ≠ user.id ∧ user.role = "citizen")
        · rw [if_pos hperm]
          exact hinv
        · rw [if_neg hperm]
          by_cases hdup : (st.verification_requests.any
              (pendingPred deedId requestType)) = true
          · rw [if_pos hdup]
            exact hinv
          · rw [if_neg hdup]
            have h0 : st.verification_requests.countP
                (pendingPred deedId requestType) = 0 := by
              rw [List.countP_eq_zero]
              intro a ha hpa
              exact hdup (List.any_eq_true.mpr ⟨a, ha, hpa⟩)
            exact pending_insert_le st.verification_requests _ hinv h0

theorem routeProcessRequest_pending_inv (st : VerifState) (user : User)
    (reqId status : String) (rd : Option String) (now : Nat)
    (hinv : ∀ d k, pendingCount st d k ≤ 1) :
    ∀ d k, pendingCount (routeProcessRequest st user reqId status
      rd now).1 d k ≤ 1 := by
  unfold routeProcessRequest
  by_cases hv : ((status ≠ "approved" ∧ status ≠ "rejected")
      ∨ detailsTooLong rd = true)
  · rw [if_pos hv]
    exact hinv
  · rw [if_neg hv]
    have hstat : status = "approved" ∨ status = "rejected" := by
      by_contra hc
      push_neg at hc
      exact hv (Or.inl hc)
    cases hf : st.verification_requests.find? (fun r => r.id == reqId) with
    | none => exact hinv
    | some vr =>
        dsimp only
        cases hfd : st.land_deeds.find? (fun d => d.id == vr.deed_id) with
        | none => exact hinv
        | some dd =>
            dsimp only
            by_cases hp : vr.status ≠ "pending"
            · rw [if_pos hp]
              exact hinv
            · rw [if_neg hp]
              intro d k
              refine Nat.le_trans (countP_map_le _ _ _ ?_) (hinv d k)
              intro x hx
              unfold processUpdate at hx
              by_cases hxid : (x.id == reqId) = true
              · rw [if_pos hxid] at hx
                exfalso
                unfold pendingPred at hx
                rw [Bool.and_eq_true] at hx
                have hps : status = "pending" := by simpa using hx.2
                rcases hstat with rfl | rfl <;> simp at hps
              · rw [if_neg hxid] at hx
                exact hx

theorem vreachable_pending_inv (st : VerifState) (h : VReachable st) :
    ∀ d k, pendingCount st d k ≤ 1 := by
  induction h with
  | init deeds =>
      intro d k
      simp [pendingCount]
  | step _ hstep ih =>
      cases hstep with
      | createReq user deedId requestType requestDetails newId now =>
          exact routeCreateRequest_pending_inv _ user deedId requestType
            requestDetails newId now ih
      | processReq user reqId status rd now =>
          exact routeProcessRequest_pending_inv _ user reqId status rd now ih
      | deedsWrite deeds' => exact ih

/-- **C6.**  At every reachable state, at most one `pending` request
exists per (deed, request kind) pair — every operation of the subsystem
preserves this.  Creating a request while a pending one of the same kind
already exists for the same deed (with validation and the ownership/role
guard passing) fails with Conflict and returns the state untouched:
nothing is inserted. -/
theorem pendingRequest_unique_invariant (st : VerifState)
    (h : VReachable st) :
    (∀ deedId kind, pendingCount st deedId kind ≤ 1)
    ∧ (∀ (user : User) (deedId requestType : String)
        (requestDetails : Option String) (newId : String) (now : Nat)
        (deed : LandDeedRow),
        isUUID deedId = true →
        (requestType = "ownership" ∨ requestType = "authenticity"
          ∨ requestType = "history") →
        detailsTooLong requestDetails = false →
        st.land_deeds.find? (fun d => d.id == deedId) = some deed →
        ¬ (deed.owner_id ≠ user.id ∧ user.role = "citizen") →
        (st.verification_requests.any (pendingPred deedId requestType))
          = true →
        routeCreateRequest st user deedId requestType requestDetails
          newId now = (st, vConflict409)) := by
  refine ⟨vreachable_pending_inv st h, ?_⟩
  intro user deedId requestType requestDetails newId now deed huuid hty
    hdet hfind hperm hdup
  have hcond : ¬ (¬ (isUUID deedId = true)
      ∨ (requestType ≠ "ownership" ∧ requestType ≠ "authenticity"
          ∧ requestType ≠ "history")
      ∨ detailsTooLong requestDetails = true) := by
    rintro (h1 | ⟨h1, h2, h3⟩ | h4)
    · exact h1 huuid
    · rcases hty with rfl | rfl | rfl
      · exact h1 rfl
      · exact h2 rfl
      · exact h3 rfl
    · rw [hdet] at h4
      cases h4
  simp only [routeCreateRequest, if_neg hcond, hfind, if_neg hperm,
    if_pos hdup]

/-- A concrete deed row of the verification subsystem. -/
def sampleVDeed : LandDeedRow :=
  { id := "aaaaaaaa-aaaa-aaaa-aaaa-aaaaaaaaaaaa", deed_number := "LD-1",
    owner_id := "u1", property_address := "1 Main St",
    verification_status := "pending", transaction_hash := none }

/-- A pending ownership-verification request for `sampleVDeed`. -/
def samplePendingReq : VReqRow :=
  { id := "r1", deed_id := "aaaaaaaa-aaaa-aaaa-aaaa-aaaaaaaaaaaa",
    requester_id := "u1", request_type := "ownership",
    request_details := none, status := "pending",
    response_details := none, processed_by := none, created_at := 1,
    processed_at := none }

/-- A concrete state: one deed, one pending ownership request. -/
def sampleVState : VerifState :=
  ⟨[sampleVDeed], [samplePendingReq]⟩

/-- A government official processing requests. -/
def official1 : User := ⟨"g1", "government_official"⟩

/-- The deed's owner, a citizen. -/
def citizen1 : User := ⟨"u1", "citizen"⟩

/-- Witness for C5 at the concrete state: approving pending request `r1`
stamps the decision onto the request row, and processing it a second
time fails with the already-processed error and changes nothing. -/
theorem processRequest_exactly_once_witness :
    routeProcessRequest sampleVState official1 "r1" "approved" none 5
      = ({ sampleVState with
            verification_requests := sampleVState.verification_requests.map
              (processUpdate "r1" "approved" none 5 official1) },
         ⟨200, [("message",
                 .s "Verification request processed successfully"),
                ("request", .reqP "r1" "approved" none 5)]⟩)
    ∧ routeProcessRequest
          (routeProcessRequest sampleVState official1 "r1" "approved"
            none 5).1 official1 "r1" "rejected" none 6
        = ((routeProcessRequest sampleVState official1 "r1" "approved"
            none 5).1, alreadyProcessed400) :=
  (processRequest_exactly_once sampleVState official1 official1 "r1"
    "approved" "rejected" none none 5 6 samplePendingReq sampleVDeed rfl rfl
    (Or.inl rfl) rfl (Or.inr rfl) rfl).2 rfl

/-- Witness for C6: after one concrete create of an ownership request, a
second create for the same deed and kind is rejected with Conflict and
inserts nothing, and the pending count stays at most one. -/
theorem pendingRequest_unique_invariant_witness :
    pendingCount (routeCreateRequest ⟨[sampleVDeed], []⟩ citizen1
        "aaaaaaaa-aaaa-aaaa-aaaa-aaaaaaaaaaaa" "ownership" none "r1" 1).1
        "aaaaaaaa-aaaa-aaaa-aaaa-aaaaaaaaaaaa" "ownership" ≤ 1
    ∧ routeCreateRequest (routeCreateRequest ⟨[sampleVDeed], []⟩ citizen1
          "aaaaaaaa-aaaa-aaaa-aaaa-aaaaaaaaaaaa" "ownership" none "r1" 1).1
          citizen1 "aaaaaaaa-aaaa-aaaa-aaaa-aaaaaaaaaaaa" "ownership" none
          "r2" 2
        = ((routeCreateRequest ⟨[sampleVDeed], []⟩ citizen1
            "aaaaaaaa-aaaa-aaaa-aaaa-aaaaaaaaaaaa" "ownership" none "r1"
            1).1, vConflict409) := by
  have h := pendingRequest_unique_invariant
    (routeCreateRequest ⟨[sampleVDeed], []⟩ citizen1
      "aaaaaaaa-aaaa-aaaa-aaaa-aaaaaaaaaaaa" "ownership" none "r1" 1).1
    (VReachable.step (VReachable.init [sampleVDeed])
      (VStep.createReq ⟨[sampleVDeed], []⟩ citizen1
        "aaaaaaaa-aaaa-aaaa-aaaa-aaaaaaaaaaaa" "ownership" none "r1" 1))
  exact ⟨h.1 _ _,
    h.2 citizen1 "aaaaaaaa-aaaa-aaaa-aaaa-aaaaaaaaaaaa" "ownership" none
      "r2" 2 sampleVDeed (by decide) (Or.inl rfl) rfl (by decide)
      (by decide) (by decide)⟩

/-- **C7, counterexample.**  Processing the concrete pending `ownership`
request `r1` with an approve decision succeeds — yet the referenced
deed's verification status stays `pending` instead of transitioning to
`verified`: the process handler never touches the deed table (and this
route module writes no verification log at all). -/
theorem processRequest_no_deed_transition_counterexample :
    ((routeProcessRequest sampleVState official1 "r1" "approved"
        none 5).2).status = 200
    ∧ (routeProcessRequest sampleVState official1 "r1" "approved"
        none 5).1.land_deeds = [sampleVDeed]
    ∧ sampleVDeed.verification_status = "pending" := by
  refine ⟨rfl, ?_, rfl⟩
  decide

/-- **C7, amended.**  Processing a verification request of any kind
(`ownership`, `authenticity` or `history`) updates only the request row
itself: whatever the inputs and outcome, the process handler leaves the
deed table — and hence every deed's verification status — entirely
unchanged, and appends no verification-log record (this route module
performs no log write).  Deed status transitions happen only through the
separate deed-verify endpoint. -/
theorem processRequest_leaves_deeds_unchanged (st : VerifState)
    (user : User) (reqId status : String) (rd : Option String)
    (now : Nat) :
    (routeProcessRequest st user reqId status rd now).1.land_deeds
      = st.land_deeds := by
  unfold routeProcessRequest
  split
  · rfl
  · split
    · rfl
    · split
      · rfl
      · split
        · rfl
        · rfl

end Verif
